import Mathlib

/-!
Verification of the chat-service real-time backend (TypeScript) against its
natural-language specification.  The TypeScript sources are shallowly embedded:
JavaScript `Map` objects become association lists, JavaScript `Set` objects
become `Finset String`, asynchronous calls whose outcome depends on an external
transport take that outcome as an explicit `Except` argument, and `Date.now()` /
`Math.random()` become explicit parameters.
-/

set_option maxRecDepth 10000
set_option linter.unusedVariables false

namespace ChatService

/-! ### JavaScript `Map` model (association list, insertion order preserved) -/

/-- Lookup in a JavaScript `Map` (`map.get(k)` / `map.has(k)`). -/
def mapFind (k : String) : List (String × α) → Option α
  | [] => none
  | (k', v) :: m => if k' = k then some v else mapFind k m

/-- JavaScript `map.set(k, v)`: replaces the entry in place when the key is
present, otherwise appends a new entry. -/
def mapSet (k : String) (v : α) : List (String × α) → List (String × α)
  | [] => [(k, v)]
  | (k', v') :: m => if k' = k then (k, v) :: m else (k', v') :: mapSet k v m

/-- JavaScript `map.delete(k)`: removes the entry with key `k`. -/
def mapDelete (k : String) (m : List (String × α)) : List (String × α) :=
  m.filter (fun p => p.1 ≠ k)

/-- JavaScript `Array.from(map.keys())` (insertion order). -/
def mapKeys (m : List (String × α)) : List String :=
  m.map Prod.fst

theorem mapFind_mapSet_self (k : String) (v : α) (m : List (String × α)) :
    mapFind k (mapSet k v m) = some v := by
  induction m with
  | nil => simp [mapFind, mapSet]
  | cons p m ih =>
    obtain ⟨k', v'⟩ := p
    by_cases h : k' = k <;> simp [mapFind, mapSet, h, ih]

theorem mapFind_mapSet_ne (k k' : String) (v : α) (m : List (String × α))
    (h : k' ≠ k) : mapFind k' (mapSet k v m) = mapFind k' m := by
  have hk : k ≠ k' := fun hh => h hh.symm
  induction m with
  | nil => simp [mapFind, mapSet, hk]
  | cons p m ih =>
    obtain ⟨k₀, v₀⟩ := p
    by_cases h₀ : k₀ = k
    · subst h₀
      simp [mapFind, mapSet, hk]
    · by_cases h₁ : k₀ = k'
      · subst h₁
        simp [mapFind, mapSet, h₀]
      · simp [mapFind, mapSet, h₀, h₁, ih]

theorem mapFind_mapDelete_self (k : String) (m : List (String × α)) :
    mapFind k (mapDelete k m) = none := by
  induction m with
  | nil => simp [mapFind, mapDelete]
  | cons p m ih =>
    obtain ⟨k', v'⟩ := p
    by_cases h : k' = k
    · simpa [mapDelete, h] using ih
    · simpa [mapFind, mapDelete, h] using ih

theorem mapFind_mapDelete_ne (k k' : String) (m : List (String × α))
    (h : k' ≠ k) : mapFind k' (mapDelete k m) = mapFind k' m := by
  have hk : k ≠ k' := fun hh => h hh.symm
  induction m with
  | nil => simp [mapFind, mapDelete]
  | cons p m ih =>
    obtain ⟨k₀, v₀⟩ := p
    by_cases h₀ : k₀ = k
    · subst h₀
      simpa [mapFind, mapDelete, hk] using ih
    · by_cases h₁ : k₀ = k'
      · subst h₁
        simp [mapFind, mapDelete, h₀]
      · simpa [mapFind, mapDelete, h₀, h₁] using ih

theorem mapFind_isSome_iff_mem_keys (k : String) (m : List (String × α)) :
    (mapFind k m).isSome = true ↔ k ∈ mapKeys m := by
  induction m with
  | nil => simp [mapFind, mapKeys]
  | cons p m ih =>
    obtain ⟨k', v'⟩ := p
    by_cases h : k' = k
    · simp [mapFind, mapKeys, h]
    · have hk : k ≠ k' := fun hh => h hh.symm
      simp [mapFind, mapKeys, h, hk, ih]

theorem mapKeys_mapSet_of_found (k : String) (v : α) (m : List (String × α))
    (h : (mapFind k m).isSome = true) : mapKeys (mapSet k v m) = mapKeys m := by
  induction m with
  | nil => simp [mapFind] at h
  | cons p m ih =>
    obtain ⟨k', v'⟩ := p
    by_cases h₀ : k' = k
    · simp [mapSet, mapKeys, h₀]
    · simp [mapFind, h₀] at h
      simp [mapSet, mapKeys, h₀] at ih ⊢
      exact ih h

theorem mapKeys_mapSet_of_not_found (k : String) (v : α) (m : List (String × α))
    (h : mapFind k m = none) : mapKeys (mapSet k v m) = mapKeys m ++ [k] := by
  induction m with
  | nil => simp [mapSet, mapKeys]
  | cons p m ih =>
    obtain ⟨k', v'⟩ := p
    by_cases h₀ : k' = k
    · simp [mapFind, h₀] at h
    · simp [mapFind, h₀] at h
      simp [mapSet, mapKeys, h₀] at ih ⊢
      exact ih h

theorem mapKeys_nodup_mapSet (k : String) (v : α) (m : List (String × α))
    (h : (mapKeys m).Nodup) : (mapKeys (mapSet k v m)).Nodup := by
  rcases hf : mapFind k m with _ | w
  · rw [mapKeys_mapSet_of_not_found k v m hf]
    have hk : k ∉ mapKeys m := by
      intro hmem
      have := (mapFind_isSome_iff_mem_keys k m).2 hmem
      simp [hf] at this
    have : (mapKeys m ++ [k]).Nodup := by
      refine List.Nodup.append h (List.nodup_singleton k) ?_
      intro a ha hb
      simp at hb
      exact hk (hb ▸ ha)
    exact this
  · rw [mapKeys_mapSet_of_found k v m (by simp [hf])]
    exact h

theorem mapKeys_nodup_mapDelete (k : String) (m : List (String × α))
    (h : (mapKeys m).Nodup) : (mapKeys (mapDelete k m)).Nodup := by
  have hsub : mapKeys (mapDelete k m) |>.Sublist (mapKeys m) := by
    unfold mapKeys mapDelete
    exact (List.filter_sublist m).map Prod.fst
  exact h.sublist hsub

/-! ### Connection registry (`SocketService` fields `connectedUsers`, `userSockets`)

Embeds the private maps of `src/src/services/socket-service.ts`:
`connectedUsers : Map<userId, Set<socketId>>` and
`userSockets : Map<socketId, userId>`. -/

structure Registry where
  connectedUsers : List (String × Finset String)
  userSockets : List (String × String)
  deriving DecidableEq

/-- The freshly constructed service: both maps empty. -/
def Registry.empty : Registry := ⟨[], []⟩

/-- `SocketService.addUserSocket(userId, socketId)`:
if the user has no entry, insert an empty set; then add the socket id to the
user's set and record `socketId -> userId`. -/
def addUserSocket (userId socketId : String) (r : Registry) : Registry :=
  let cu :=
    if (mapFind userId r.connectedUsers).isSome then r.connectedUsers
    else mapSet userId (∅ : Finset String) r.connectedUsers
  let s := (mapFind userId cu).getD ∅
  { connectedUsers := mapSet userId (insert socketId s) cu
    userSockets := mapSet socketId userId r.userSockets }

/-- `SocketService.removeUserSocket(userId, socketId)`:
delete the socket id from the user's set, drop the user's entry when the set
becomes empty, and remove the `socketId -> userId` record. -/
def removeUserSocket (userId socketId : String) (r : Registry) : Registry :=
  let cu :=
    match mapFind userId r.connectedUsers with
    | some s =>
      let s' := s.erase socketId
      if s'.card = 0 then mapDelete userId r.connectedUsers
      else mapSet userId s' r.connectedUsers
    | none => r.connectedUsers
  { connectedUsers := cu
    userSockets := mapDelete socketId r.userSockets }

/-- `SocketService.isUserOnline(userId)`: `connectedUsers.has(userId)`. -/
def isUserOnline (userId : String) (r : Registry) : Bool :=
  (mapFind userId r.connectedUsers).isSome

/-- `SocketService.getUserSocketCount(userId)`:
`connectedUsers.get(userId)?.size || 0`. -/
def getUserSocketCount (userId : String) (r : Registry) : Nat :=
  match mapFind userId r.connectedUsers with
  | some s => s.card
  | none => 0

/-- `SocketService.getConnectedUsers()` and the `users:online` handler:
`Array.from(connectedUsers.keys())`. -/
def getConnectedUsers (r : Registry) : List String :=
  mapKeys r.connectedUsers

/-- Registry consistency: no user entry holds an empty set, the two maps are
mutually consistent (`userSockets` maps `s` to `u` iff `s` is in `u`'s set),
and both maps have duplicate-free key lists. -/
def RegInv (r : Registry) : Prop :=
  (∀ u s, mapFind u r.connectedUsers = some s → s.Nonempty) ∧
  (∀ s u, mapFind s r.userSockets = some u ↔
    ∃ t, mapFind u r.connectedUsers = some t ∧ s ∈ t) ∧
  (mapKeys r.connectedUsers).Nodup ∧ (mapKeys r.userSockets).Nodup

theorem regInv_empty : RegInv Registry.empty := by
  refine ⟨?_, ?_, ?_, ?_⟩ <;> simp [Registry.empty, mapFind, mapKeys, RegInv]

theorem mapSet_of_found_same (k : String) (v : α) (m : List (String × α))
    (h : mapFind k m = some v) : mapSet k v m = m := by
  induction m with
  | nil => simp [mapFind] at h
  | cons p m ih =>
    obtain ⟨k₀, v₀⟩ := p
    by_cases h₀ : k₀ = k
    · subst h₀
      simp [mapFind] at h
      simp [mapSet, h]
    · simp [mapFind, h₀] at h
      simp [mapSet, h₀, ih h]

theorem mapDelete_of_not_found (k : String) (m : List (String × α))
    (h : mapFind k m = none) : mapDelete k m = m := by
  induction m with
  | nil => simp [mapDelete]
  | cons p m ih =>
    obtain ⟨k₀, v₀⟩ := p
    by_cases h₀ : k₀ = k
    · simp [mapFind, h₀] at h
    · simp [mapFind, h₀] at h
      have hrec := ih h
      simp only [mapDelete, List.filter_cons] at hrec ⊢
      simp [h₀, hrec]
      intro a b hmem
      have := List.filter_eq_self.mp hrec _ hmem
      simpa using this

theorem addUserSocket_userSockets (u s : String) (r : Registry) :
    (addUserSocket u s r).userSockets = mapSet s u r.userSockets := rfl

theorem removeUserSocket_userSockets (u s : String) (r : Registry) :
    (removeUserSocket u s r).userSockets = mapDelete s r.userSockets := rfl

theorem addUserSocket_find_self (u s : String) (r : Registry) :
    mapFind u (addUserSocket u s r).connectedUsers =
      some (insert s ((mapFind u r.connectedUsers).getD ∅)) := by
  unfold addUserSocket
  rcases hf : mapFind u r.connectedUsers with _ | t
  · simp [hf, mapFind_mapSet_self]
  · simp [hf, mapFind_mapSet_self]

theorem addUserSocket_find_ne (u u' s : String) (r : Registry) (h : u' ≠ u) :
    mapFind u' (addUserSocket u s r).connectedUsers =
      mapFind u' r.connectedUsers := by
  unfold addUserSocket
  rcases hf : mapFind u r.connectedUsers with _ | t
  · simp only [hf, Option.isSome_none, Bool.false_eq_true, if_false]
    rw [mapFind_mapSet_ne u u' _ _ h, mapFind_mapSet_ne u u' _ _ h]
  · simp only [hf, Option.isSome_some, if_true]
    rw [mapFind_mapSet_ne u u' _ _ h]

/-- Adding a fresh socket (one not currently tracked in `userSockets`)
preserves the registry invariant. -/
theorem regInv_addUserSocket (u s : String) (r : Registry) (hinv : RegInv r)
    (hfresh : mapFind s r.userSockets = none) :
    RegInv (addUserSocket u s r) := by
  obtain ⟨hne, hcons, hnd₁, hnd₂⟩ := hinv
  refine ⟨?_, ?_, ?_, ?_⟩
  · intro u' t' hft
    by_cases hu : u' = u
    · subst hu
      rw [addUserSocket_find_self] at hft
      cases hft
      exact ⟨s, Finset.mem_insert_self s _⟩
    · rw [addUserSocket_find_ne u u' s r hu] at hft
      exact hne u' t' hft
  · intro s' u'
    rw [addUserSocket_userSockets]
    by_cases hs : s' = s
    · subst hs
      rw [mapFind_mapSet_self]
      constructor
      · intro h
        cases h
        exact ⟨_, addUserSocket_find_self u s' r, Finset.mem_insert_self s' _⟩
      · rintro ⟨t, hft, hmem⟩
        by_cases hu : u' = u
        · exact congrArg some hu.symm ▸ rfl
        · rw [addUserSocket_find_ne u u' s' r hu] at hft
          have := (hcons s' u').2 ⟨t, hft, hmem⟩
          rw [hfresh] at this
          cases this
    · rw [mapFind_mapSet_ne s s' u r.userSockets hs]
      by_cases hu : u' = u
      · subst hu
        rw [addUserSocket_find_self]
        rcases hf : mapFind u' r.connectedUsers with _ | t₀
        · constructor
          · intro h
            have := (hcons s' u').1 h
            rw [hf] at this
            obtain ⟨t, ht, _⟩ := this
            cases ht
          · intro h
            obtain ⟨t, ht, hmem⟩ := h
            cases ht
            simp only [hf, Option.getD_none, Finset.mem_insert,
              Finset.not_mem_empty, or_false] at hmem
            exact absurd hmem hs
        · constructor
          · intro h
            refine ⟨_, rfl, ?_⟩
            have := (hcons s' u').1 h
            rw [hf] at this
            obtain ⟨t, ht, hmem⟩ := this
            cases ht
            simp only [hf, Option.getD_some]
            exact Finset.mem_insert_of_mem hmem
          · rintro ⟨t, ht, hmem⟩
            cases ht
            simp only [hf, Option.getD_some, Finset.mem_insert] at hmem
            rcases hmem with hmem | hmem
            · exact absurd hmem hs
            · exact (hcons s' u').2 ⟨t₀, hf, hmem⟩
      · rw [addUserSocket_find_ne u u' s r hu]
        exact hcons s' u'
  · unfold addUserSocket
    rcases hf : mapFind u r.connectedUsers with _ | t
    · simp only [hf, Option.isSome_none, Bool.false_eq_true, if_false]
      exact mapKeys_nodup_mapSet _ _ _ (mapKeys_nodup_mapSet _ _ _ hnd₁)
    · simp only [hf, Option.isSome_some, if_true]
      exact mapKeys_nodup_mapSet _ _ _ hnd₁
  · rw [addUserSocket_userSockets]
    exact mapKeys_nodup_mapSet _ _ _ hnd₂

/-- Removing a socket whose `userSockets` entry names the same user preserves
the registry invariant. -/
theorem regInv_removeUserSocket (u s : String) (r : Registry) (hinv : RegInv r)
    (howner : mapFind s r.userSockets = some u) :
    RegInv (removeUserSocket u s r) := by
  obtain ⟨hne, hcons, hnd₁, hnd₂⟩ := hinv
  obtain ⟨t, hft, hst⟩ := (hcons s u).1 howner
  unfold removeUserSocket
  rw [hft]
  by_cases hcard : (t.erase s).card = 0
  · have herase : t.erase s = ∅ := Finset.card_eq_zero.mp hcard
    simp only [hcard, if_true]
    refine ⟨?_, ?_, ?_, ?_⟩
    · intro u' t' hft'
      by_cases hu : u' = u
      · subst hu
        rw [mapFind_mapDelete_self] at hft'
        cases hft'
      · rw [mapFind_mapDelete_ne u u' _ hu] at hft'
        exact hne u' t' hft'
    · intro s' u'
      by_cases hs : s' = s
      · subst hs
        rw [mapFind_mapDelete_self]
        constructor
        · intro h
          cases h
        · rintro ⟨t', hft', hmem⟩
          by_cases hu : u' = u
          · subst hu
            rw [mapFind_mapDelete_self] at hft'
            cases hft'
          · rw [mapFind_mapDelete_ne u u' _ hu] at hft'
            have := (hcons s' u').2 ⟨t', hft', hmem⟩
            rw [howner] at this
            cases this
            exact absurd rfl hu
      · rw [mapFind_mapDelete_ne s s' _ hs]
        by_cases hu : u' = u
        · subst hu
          rw [mapFind_mapDelete_self]
          constructor
          · intro h
            obtain ⟨t', hft', hmem⟩ := (hcons s' u').1 h
            rw [hft] at hft'
            cases hft'
            have : s' ∈ t.erase s := Finset.mem_erase.mpr ⟨hs, hmem⟩
            rw [herase] at this
            cases this
          · rintro ⟨t', hft', _⟩
            cases hft'
        · rw [mapFind_mapDelete_ne u u' _ hu]
          exact hcons s' u'
    · exact mapKeys_nodup_mapDelete _ _ hnd₁
    · exact mapKeys_nodup_mapDelete _ _ hnd₂
  · simp only [hcard, if_false]
    refine ⟨?_, ?_, ?_, ?_⟩
    · intro u' t' hft'
      by_cases hu : u' = u
      · subst hu
        rw [mapFind_mapSet_self] at hft'
        cases hft'
        exact Finset.card_ne_zero.mp hcard
      · rw [mapFind_mapSet_ne u u' _ _ hu] at hft'
        exact hne u' t' hft'
    · intro s' u'
      by_cases hs : s' = s
      · subst hs
        rw [mapFind_mapDelete_self]
        constructor
        · intro h
          cases h
        · rintro ⟨t', hft', hmem⟩
          by_cases hu : u' = u
          · subst hu
            rw [mapFind_mapSet_self] at hft'
            cases hft'
            exact absurd hmem (Finset.not_mem_erase s' t)
          · rw [mapFind_mapSet_ne u u' _ _ hu] at hft'
            have := (hcons s' u').2 ⟨t', hft', hmem⟩
            rw [howner] at this
            cases this
            exact absurd rfl hu
      · rw [mapFind_mapDelete_ne s s' _ hs]
        by_cases hu : u' = u
        · subst hu
          rw [mapFind_mapSet_self]
          constructor
          · intro h
            obtain ⟨t', hft', hmem⟩ := (hcons s' u').1 h
            rw [hft] at hft'
            cases hft'
            exact ⟨_, rfl, Finset.mem_erase.mpr ⟨hs, hmem⟩⟩
          · rintro ⟨t', hft', hmem⟩
            cases hft'
            exact (hcons s' u').2 ⟨t, hft, (Finset.mem_erase.mp hmem).2⟩
        · rw [mapFind_mapSet_ne u u' _ _ hu]
          exact hcons s' u'
    · exact mapKeys_nodup_mapSet _ _ _ hnd₁
    · exact mapKeys_nodup_mapDelete _ _ hnd₂

/-- Removing a socket that is not tracked in `userSockets` is a no-op
(`Set.delete` and `Map.delete` of absent members change nothing). -/
theorem removeUserSocket_not_found (u s : String) (r : Registry)
    (hinv : RegInv r) (habs : mapFind s r.userSockets = none) :
    removeUserSocket u s r = r := by
  obtain ⟨hne, hcons, _, _⟩ := hinv
  have hus : mapDelete s r.userSockets = r.userSockets :=
    mapDelete_of_not_found s _ habs
  unfold removeUserSocket
  rcases hft : mapFind u r.connectedUsers with _ | t
  · simp only [hus]
  · have hsnot : s ∉ t := by
      intro hmem
      have := (hcons s u).2 ⟨t, hft, hmem⟩
      rw [habs] at this
      cases this
    have herase : t.erase s = t := Finset.erase_eq_of_not_mem hsnot
    have hcard : t.card ≠ 0 := Finset.card_ne_zero.mpr (hne u t hft)
    simp only [herase, hcard, if_false, hus]
    rw [mapSet_of_found_same u t _ hft]

/-- With the invariant, `isUserOnline` agrees with a positive live-socket
count. -/
theorem isUserOnline_iff_count_pos (u : String) (r : Registry)
    (hinv : RegInv r) :
    isUserOnline u r = true ↔ 0 < getUserSocketCount u r := by
  obtain ⟨hne, _, _, _⟩ := hinv
  unfold isUserOnline getUserSocketCount
  rcases hft : mapFind u r.connectedUsers with _ | t
  · simp
  · simpa using Finset.card_pos.mpr (hne u t hft)

/-- Removing one of the owner's sockets decrements the live-socket count. -/
theorem count_removeUserSocket (u s : String) (r : Registry) (hinv : RegInv r)
    (howner : mapFind s r.userSockets = some u) :
    getUserSocketCount u (removeUserSocket u s r) = getUserSocketCount u r - 1 := by
  obtain ⟨hne, hcons, _, _⟩ := hinv
  obtain ⟨t, hft, hst⟩ := (hcons s u).1 howner
  unfold removeUserSocket getUserSocketCount
  rw [hft]
  have hcarderase : (t.erase s).card = t.card - 1 := Finset.card_erase_of_mem hst
  by_cases hcard : (t.erase s).card = 0
  · simp only [hcard, if_true, mapFind_mapDelete_self]
    simp [hft, ← hcarderase, hcard]
  · simp only [hcard, if_false, mapFind_mapSet_self]
    simp [hft, hcarderase]

/-! ### Socket lifecycle events (`SocketService.initListeners`)

The `connection` handler calls `addUserSocket` and broadcasts an `online`
status; the `disconnect` handler calls `removeUserSocket` and broadcasts an
`offline` status exactly when `connectedUsers.has(userId)` is false after the
removal. -/

inductive RegEvent where
  | connect (userId socketId : String)
  | disconnect (userId socketId : String)
  deriving DecidableEq

/-- Effect of one registry call (`addUserSocket` / `removeUserSocket`). -/
def applyCall (r : Registry) : RegEvent → Registry
  | .connect u s => addUserSocket u s r
  | .disconnect u s => removeUserSocket u s r

/-- Iterated registry calls. -/
def runCalls (r : Registry) : List RegEvent → Registry
  | [] => r
  | e :: es => runCalls (applyCall r e) es

/-- Call-level well-formedness for the claim about raw
`addUserSocket`/`removeUserSocket` sequences: every addition uses a socket id
not currently tracked, and every removal either names an untracked socket id
(an allowed no-op) or uses the same user id as the matching addition. -/
def wfCalls (r : Registry) : List RegEvent → Bool
  | [] => true
  | .connect u s :: es =>
    (mapFind s r.userSockets).isNone && wfCalls (applyCall r (.connect u s)) es
  | .disconnect u s :: es =>
    (match mapFind s r.userSockets with
     | none => true
     | some u' => u' == u) && wfCalls (applyCall r (.disconnect u s)) es

/-- Event-level well-formedness for socket.io lifecycles: `connection` always
delivers a fresh socket id, and `disconnect` fires exactly once per live
socket, carrying the same `socket.userId` that was recorded at connection. -/
def wfEvents (r : Registry) : List RegEvent → Bool
  | [] => true
  | .connect u s :: es =>
    (mapFind s r.userSockets).isNone && wfEvents (applyCall r (.connect u s)) es
  | .disconnect u s :: es =>
    (mapFind s r.userSockets == some u) && wfEvents (applyCall r (.disconnect u s)) es

/-- Gateway state for presence: the registry plus the chronological list of
`USER_STATUS` broadcasts `(userId, status)` issued so far. -/
structure GatewayState where
  reg : Registry
  broadcasts : List (String × String)

/-- One `connection`/`disconnect` handler execution, as far as the registry and
`broadcastUserStatus` are concerned. -/
def stepEvent (g : GatewayState) : RegEvent → GatewayState
  | .connect u s =>
    { reg := addUserSocket u s g.reg
      broadcasts := g.broadcasts ++ [(u, "online")] }
  | .disconnect u s =>
    let r' := removeUserSocket u s g.reg
    { reg := r'
      broadcasts :=
        g.broadcasts ++
          (if (mapFind u r'.connectedUsers).isSome then [] else [(u, "offline")]) }

/-- Iterated handler executions. -/
def runEvents (g : GatewayState) : List RegEvent → GatewayState
  | [] => g
  | e :: es => runEvents (stepEvent g e) es

/-- Number of `offline` broadcasts issued for a user. -/
def offlineCount (u : String) (bs : List (String × String)) : Nat :=
  (bs.filter fun b => b.1 = u ∧ b.2 = "offline").length

/-- Specification-side count: the number of disconnect events that bring the
user's live-connection count from positive back to zero. -/
def zeroTransitions (u : String) (r : Registry) : List RegEvent → Nat
  | [] => 0
  | .connect u' s :: es => zeroTransitions u (addUserSocket u' s r) es
  | .disconnect u' s :: es =>
    let r' := removeUserSocket u' s r
    (if u' = u ∧ 0 < getUserSocketCount u r ∧ getUserSocketCount u r' = 0
     then 1 else 0) +
    zeroTransitions u r' es

theorem wfCalls_of_wfEvents (r : Registry) (es : List RegEvent)
    (h : wfEvents r es = true) : wfCalls r es = true := by
  induction es generalizing r with
  | nil => rfl
  | cons e es ih =>
    cases e with
    | connect u s =>
      simp only [wfEvents, Bool.and_eq_true] at h
      simp only [wfCalls, Bool.and_eq_true]
      exact ⟨h.1, ih _ h.2⟩
    | disconnect u s =>
      simp only [wfEvents, Bool.and_eq_true, beq_iff_eq] at h
      simp only [wfCalls, Bool.and_eq_true]
      refine ⟨?_, ih _ h.2⟩
      rw [h.1]
      simp

theorem regInv_applyCall (r : Registry) (e : RegEvent) (hinv : RegInv r)
    (h : wfCalls r [e] = true) : RegInv (applyCall r e) := by
  cases e with
  | connect u s =>
    simp only [wfCalls, Bool.and_eq_true, Option.isNone_iff_eq_none] at h
    exact regInv_addUserSocket u s r hinv h.1
  | disconnect u s =>
    simp only [wfCalls, Bool.and_eq_true] at h
    simp only [applyCall]
    rcases hus : mapFind s r.userSockets with _ | u'
    · rw [removeUserSocket_not_found u s r hinv hus]
      exact hinv
    · have : u' = u := by
        have := h.1
        rw [hus] at this
        simpa using this
      subst this
      exact regInv_removeUserSocket u' s r hinv hus

theorem regInv_runCalls (r : Registry) (es : List RegEvent) (hinv : RegInv r)
    (h : wfCalls r es = true) : RegInv (runCalls r es) := by
  induction es generalizing r with
  | nil => exact hinv
  | cons e es ih =>
    have hstep : RegInv (applyCall r e) := by
      refine regInv_applyCall r e hinv ?_
      cases e <;>
        simp only [wfCalls, Bool.and_eq_true] at h ⊢ <;> exact ⟨h.1, trivial⟩
    have htail : wfCalls (applyCall r e) es = true := by
      cases e <;> simp only [wfCalls, Bool.and_eq_true] at h <;> exact h.2
    exact ih _ hstep htail

theorem offlineCount_append (u : String) (bs l : List (String × String)) :
    offlineCount u (bs ++ l) = offlineCount u bs + offlineCount u l := by
  simp [offlineCount, List.filter_append]

theorem offlineCount_online (u u' : String) :
    offlineCount u [(u', "online")] = 0 := by
  have hne : ¬(("online" : String) = "offline") := by decide
  simp [offlineCount, hne]

theorem offlineCount_offline (u u' : String) :
    offlineCount u [(u', "offline")] = if u' = u then 1 else 0 := by
  by_cases h : u' = u <;> simp [offlineCount, h]

/-- Core presence induction: running the connection/disconnect handlers keeps
the registry invariant and issues exactly one `offline` broadcast per
disconnect that brings the user's live-connection count back to zero. -/
theorem run_offline_broadcasts (u : String) (es : List RegEvent) :
    ∀ (r : Registry) (bs : List (String × String)), RegInv r →
      wfEvents r es = true →
      RegInv (runEvents ⟨r, bs⟩ es).reg ∧
      offlineCount u (runEvents ⟨r, bs⟩ es).broadcasts =
        offlineCount u bs + zeroTransitions u r es := by
  induction es with
  | nil => intro r bs hinv _; exact ⟨hinv, by simp [runEvents, zeroTransitions]⟩
  | cons e es ih =>
    intro r bs hinv hwf
    cases e with
    | connect u' s =>
      simp only [wfEvents, Bool.and_eq_true, Option.isNone_iff_eq_none] at hwf
      have hinv' : RegInv (addUserSocket u' s r) :=
        regInv_addUserSocket u' s r hinv hwf.1
      have hrec := ih (addUserSocket u' s r) (bs ++ [(u', "online")]) hinv'
        (by simpa [applyCall] using hwf.2)
      simp only [runEvents, stepEvent, zeroTransitions] at hrec ⊢
      refine ⟨hrec.1, ?_⟩
      rw [hrec.2, offlineCount_append, offlineCount_online]
      omega
    | disconnect u' s =>
      simp only [wfEvents, Bool.and_eq_true, beq_iff_eq] at hwf
      have howner : mapFind s r.userSockets = some u' := hwf.1
      have hinv' : RegInv (removeUserSocket u' s r) :=
        regInv_removeUserSocket u' s r hinv howner
      have hposbefore : 0 < getUserSocketCount u' r := by
        obtain ⟨t, hft, hst⟩ := (hinv.2.1 s u').1 howner
        unfold getUserSocketCount
        rw [hft]
        exact Finset.card_pos.mpr ⟨s, hst⟩
      have hrec := ih (removeUserSocket u' s r)
        (bs ++
          (if (mapFind u' (removeUserSocket u' s r).connectedUsers).isSome
           then [] else [(u', "offline")])) hinv'
        (by simpa [applyCall] using hwf.2)
      simp only [runEvents, stepEvent, zeroTransitions] at hrec ⊢
      refine ⟨hrec.1, ?_⟩
      rw [hrec.2, offlineCount_append]
      have hemit :
          offlineCount u
              (if (mapFind u' (removeUserSocket u' s r).connectedUsers).isSome
               then ([] : List (String × String)) else [(u', "offline")]) =
            if u' = u ∧ 0 < getUserSocketCount u r ∧
                getUserSocketCount u (removeUserSocket u' s r) = 0
            then 1 else 0 := by
        have hiff := isUserOnline_iff_count_pos u' (removeUserSocket u' s r) hinv'
        unfold isUserOnline at hiff
        by_cases hu : u' = u
        · subst hu
          by_cases hzero : getUserSocketCount u' (removeUserSocket u' s r) = 0
          · have hnotsome :
                (mapFind u' (removeUserSocket u' s r).connectedUsers).isSome = false := by
              rcases hb : (mapFind u' (removeUserSocket u' s r).connectedUsers).isSome
              · rfl
              · have := hiff.1 hb
                omega
            rw [hnotsome]
            simp only [Bool.false_eq_true, if_false]
            rw [offlineCount_offline]
            simp [hposbefore, hzero]
          · have hsome : (mapFind u' (removeUserSocket u' s r).connectedUsers).isSome = true :=
              hiff.2 (Nat.pos_of_ne_zero hzero)
            rw [hsome]
            simp [offlineCount, hzero]
        · have : offlineCount u [(u', "offline")] = 0 := by
            rw [offlineCount_offline]
            simp [hu]
          rcases hb : (mapFind u' (removeUserSocket u' s r).connectedUsers).isSome <;>
            simp [hb, offlineCount, hu, this]
      rw [hemit]
      omega

/-- With the invariant, removing one of the owner's sockets deletes the user's
`connectedUsers` entry exactly when it was the last live socket. -/
theorem remove_deletes_entry_iff_last (u s : String) (r : Registry)
    (hinv : RegInv r) (howner : mapFind s r.userSockets = some u) :
    mapFind u (removeUserSocket u s r).connectedUsers = none ↔
      getUserSocketCount u r = 1 := by
  obtain ⟨t, hft, hst⟩ := (hinv.2.1 s u).1 howner
  have hcount : getUserSocketCount u r = t.card := by
    unfold getUserSocketCount
    rw [hft]
  have hcardpos : 0 < t.card := Finset.card_pos.mpr ⟨s, hst⟩
  have herase : (t.erase s).card = t.card - 1 := Finset.card_erase_of_mem hst
  unfold removeUserSocket
  rw [hft]
  by_cases hcard : (t.erase s).card = 0
  · simp only [hcard, if_true, mapFind_mapDelete_self, hcount]
    constructor
    · intro _
      omega
    · intro _
      trivial
  · simp only [hcard, if_false, mapFind_mapSet_self, hcount]
    constructor
    · intro hh
      cases hh
    · intro hh
      omega

/-- C1.  For every well-formed sequence of socket connect/disconnect events,
`isUserOnline(userId)` is true iff the user's live socket count is positive,
and the number of `offline` status broadcasts for the user equals the number
of disconnects that bring that user's live-connection count back to zero —
one per zero transition, never one per disconnect. -/
theorem presence_online_iff_and_single_offline_broadcast
    (u : String) (es : List RegEvent)
    (h : wfEvents Registry.empty es = true) :
    (isUserOnline u (runEvents ⟨Registry.empty, []⟩ es).reg = true ↔
      0 < getUserSocketCount u (runEvents ⟨Registry.empty, []⟩ es).reg) ∧
    offlineCount u (runEvents ⟨Registry.empty, []⟩ es).broadcasts =
      zeroTransitions u Registry.empty es := by
  have hmain := run_offline_broadcasts u es Registry.empty [] regInv_empty h
  refine ⟨isUserOnline_iff_count_pos u _ hmain.1, ?_⟩
  rw [hmain.2]
  simp [offlineCount]

/-- Witness for C1: a user with two simultaneous connections; the first
disconnect broadcasts nothing, the second (count 2 → 1 → 0) broadcasts exactly
one `offline`. -/
theorem presence_online_iff_and_single_offline_broadcast_witness :
    wfEvents Registry.empty
        [RegEvent.connect "alice" "s1", RegEvent.connect "alice" "s2",
         RegEvent.disconnect "alice" "s1", RegEvent.disconnect "alice" "s2"] = true ∧
    ((isUserOnline "alice" (runEvents ⟨Registry.empty, []⟩
        [RegEvent.connect "alice" "s1", RegEvent.connect "alice" "s2",
         RegEvent.disconnect "alice" "s1", RegEvent.disconnect "alice" "s2"]).reg = true ↔
      0 < getUserSocketCount "alice" (runEvents ⟨Registry.empty, []⟩
        [RegEvent.connect "alice" "s1", RegEvent.connect "alice" "s2",
         RegEvent.disconnect "alice" "s1", RegEvent.disconnect "alice" "s2"]).reg) ∧
    offlineCount "alice" (runEvents ⟨Registry.empty, []⟩
        [RegEvent.connect "alice" "s1", RegEvent.connect "alice" "s2",
         RegEvent.disconnect "alice" "s1", RegEvent.disconnect "alice" "s2"]).broadcasts =
      zeroTransitions "alice" Registry.empty
        [RegEvent.connect "alice" "s1", RegEvent.connect "alice" "s2",
         RegEvent.disconnect "alice" "s1", RegEvent.disconnect "alice" "s2"]) :=
  ⟨by decide,
   presence_online_iff_and_single_offline_broadcast "alice"
     [RegEvent.connect "alice" "s1", RegEvent.connect "alice" "s2",
      RegEvent.disconnect "alice" "s1", RegEvent.disconnect "alice" "s2"]
     (by decide)⟩

/-- C9.  After any well-formed sequence of `addUserSocket`/`removeUserSocket`
calls: `userSockets` maps `s` to `u` iff `s` is in `connectedUsers.get(u)`;
no user maps to an empty set; a user's entry is deleted by a removal exactly
when the removed socket was their last one; and removing an untracked socket
is a no-op. -/
theorem registry_maps_consistent (cs : List RegEvent)
    (h : wfCalls Registry.empty cs = true) :
    (∀ s u, mapFind s (runCalls Registry.empty cs).userSockets = some u ↔
      ∃ t, mapFind u (runCalls Registry.empty cs).connectedUsers = some t ∧ s ∈ t) ∧
    (∀ u t, mapFind u (runCalls Registry.empty cs).connectedUsers = some t →
      t.Nonempty) ∧
    (∀ u s, mapFind s (runCalls Registry.empty cs).userSockets = some u →
      (mapFind u (removeUserSocket u s
          (runCalls Registry.empty cs)).connectedUsers = none ↔
        getUserSocketCount u (runCalls Registry.empty cs) = 1)) ∧
    (∀ u s, mapFind s (runCalls Registry.empty cs).userSockets = none →
      removeUserSocket u s (runCalls Registry.empty cs) =
        runCalls Registry.empty cs) := by
  have hinv := regInv_runCalls Registry.empty cs regInv_empty h
  refine ⟨hinv.2.1, hinv.1, ?_, ?_⟩
  · intro u s howner
    exact remove_deletes_entry_iff_last u s _ hinv howner
  · intro u s habs
    exact removeUserSocket_not_found u s _ hinv habs

/-- Witness for C9: two sockets for one user, one removed; the untracked
socket id `s9` removal is covered by the final conjunct. -/
theorem registry_maps_consistent_witness :
    wfCalls Registry.empty
        [RegEvent.connect "bob" "t1", RegEvent.connect "bob" "t2",
         RegEvent.disconnect "bob" "t1"] = true ∧
    ((∀ s u, mapFind s (runCalls Registry.empty
        [RegEvent.connect "bob" "t1", RegEvent.connect "bob" "t2",
         RegEvent.disconnect "bob" "t1"]).userSockets = some u ↔
      ∃ t, mapFind u (runCalls Registry.empty
        [RegEvent.connect "bob" "t1", RegEvent.connect "bob" "t2",
         RegEvent.disconnect "bob" "t1"]).connectedUsers = some t ∧ s ∈ t) ∧
    (∀ u t, mapFind u (runCalls Registry.empty
        [RegEvent.connect "bob" "t1", RegEvent.connect "bob" "t2",
         RegEvent.disconnect "bob" "t1"]).connectedUsers = some t →
      t.Nonempty) ∧
    (∀ u s, mapFind s (runCalls Registry.empty
        [RegEvent.connect "bob" "t1", RegEvent.connect "bob" "t2",
         RegEvent.disconnect "bob" "t1"]).userSockets = some u →
      (mapFind u (removeUserSocket u s (runCalls Registry.empty
          [RegEvent.connect "bob" "t1", RegEvent.connect "bob" "t2",
           RegEvent.disconnect "bob" "t1"])).connectedUsers = none ↔
        getUserSocketCount u (runCalls Registry.empty
          [RegEvent.connect "bob" "t1", RegEvent.connect "bob" "t2",
           RegEvent.disconnect "bob" "t1"]) = 1)) ∧
    (∀ u s, mapFind s (runCalls Registry.empty
        [RegEvent.connect "bob" "t1", RegEvent.connect "bob" "t2",
         RegEvent.disconnect "bob" "t1"]).userSockets = none →
      removeUserSocket u s (runCalls Registry.empty
        [RegEvent.connect "bob" "t1", RegEvent.connect "bob" "t2",
         RegEvent.disconnect "bob" "t1"]) =
        runCalls Registry.empty
          [RegEvent.connect "bob" "t1", RegEvent.connect "bob" "t2",
           RegEvent.disconnect "bob" "t1"])) :=
  ⟨by decide,
   registry_maps_consistent
     [RegEvent.connect "bob" "t1", RegEvent.connect "bob" "t2",
      RegEvent.disconnect "bob" "t1"] (by decide)⟩

/-- C10.  The `users:online` reply lists each online user exactly once
(duplicate-free keys, and a user is listed iff online), and
`getUserSocketCount` returns 0 for a user with no live connections. -/
theorem users_online_list_unique (cs : List RegEvent)
    (h : wfCalls Registry.empty cs = true) :
    (getConnectedUsers (runCalls Registry.empty cs)).Nodup ∧
    (∀ u, u ∈ getConnectedUsers (runCalls Registry.empty cs) ↔
      isUserOnline u (runCalls Registry.empty cs) = true) ∧
    (∀ u, isUserOnline u (runCalls Registry.empty cs) = false →
      getUserSocketCount u (runCalls Registry.empty cs) = 0) := by
  have hinv := regInv_runCalls Registry.empty cs regInv_empty h
  refine ⟨hinv.2.2.1, ?_, ?_⟩
  · intro u
    exact (mapFind_isSome_iff_mem_keys u _).symm
  · intro u hoff
    unfold isUserOnline at hoff
    unfold getUserSocketCount
    rcases hft : mapFind u (runCalls Registry.empty cs).connectedUsers with _ | t
    · rfl
    · rw [hft] at hoff
      cases hoff

/-- Witness for C10: a user holding two sockets appears once in the online
list; an unknown user has socket count 0. -/
theorem users_online_list_unique_witness :
    wfCalls Registry.empty
        [RegEvent.connect "carol" "w1", RegEvent.connect "carol" "w2"] = true ∧
    ((getConnectedUsers (runCalls Registry.empty
        [RegEvent.connect "carol" "w1", RegEvent.connect "carol" "w2"])).Nodup ∧
    (∀ u, u ∈ getConnectedUsers (runCalls Registry.empty
        [RegEvent.connect "carol" "w1", RegEvent.connect "carol" "w2"]) ↔
      isUserOnline u (runCalls Registry.empty
        [RegEvent.connect "carol" "w1", RegEvent.connect "carol" "w2"]) = true) ∧
    (∀ u, isUserOnline u (runCalls Registry.empty
        [RegEvent.connect "carol" "w1", RegEvent.connect "carol" "w2"]) = false →
      getUserSocketCount u (runCalls Registry.empty
        [RegEvent.connect "carol" "w1", RegEvent.connect "carol" "w2"]) = 0)) :=
  ⟨by decide,
   users_online_list_unique
     [RegEvent.connect "carol" "w1", RegEvent.connect "carol" "w2"] (by decide)⟩

/-! ### JavaScript string helpers used by the handlers -/

/-- Characters removed by JavaScript `String.prototype.trim` (the common
whitespace code points used in this code base). -/
def jsWhitespace (c : Char) : Bool :=
  c = ' ' ∨ c = '\t' ∨ c = '\n' ∨ c = '\r'

/-- JavaScript `s.trim()`. -/
def jsTrim (s : String) : String :=
  String.mk (((s.data.dropWhile jsWhitespace).reverse.dropWhile jsWhitespace).reverse)

/-- JavaScript `x || d` for an optional string `x` (absent and the empty
string are both falsy). -/
def jsOr (o : Option String) (d : String) : String :=
  match o with
  | some s => if s = "" then d else s
  | none => d

/-! ### Message store and Event-Bus consumer handlers
(`src/src/services/kafka-service.ts`)

The persistent store collaborator is modelled as the list of persisted message
rows, in creation order.  `prisma.message.findUnique({where:{id}})` is a scan
for the row with that id; `create` appends; `upsert` with an empty `update`
clause leaves an existing row unchanged. -/

structure MessageRow where
  id : String
  text : String
  userId : String
  roomId : String
  deriving DecidableEq

/-- `prisma.message.findUnique({ where: { id } })`. -/
def findUniqueMsg (i : String) (store : List MessageRow) : Option MessageRow :=
  store.find? (fun row => row.id = i)

/-- Number of persisted rows carrying a given identifier. -/
def countById (i : String) (store : List MessageRow) : Nat :=
  (store.filter (fun row => row.id = i)).length

/-- `prisma.message.upsert({ where: { id: whereId }, update: {}, create: row })`. -/
def upsertMessage (whereId : String) (row : MessageRow)
    (store : List MessageRow) : List MessageRow :=
  match findUniqueMsg whereId store with
  | some _ => store
  | none => store ++ [row]

/-- A Kafka `MESSAGES` envelope as decoded by the consumer
(`JSON.parse(message.value.toString())`); absent fields are `none`, and the
empty string plays the role of any other falsy field value. -/
structure KEnvelope where
  id : Option String
  text : String
  userId : String
  roomId : Option String
  deriving DecidableEq

/-- The `eachMessage` body of the single-topic (upsert) variant of
`KafkaService.startConsumer`: validate `text`/`userId`, then upsert keyed by
`messageData.id || userId-Date.now()`, creating
`{id: messageData.id, text, userId, roomId || 'global'}` when absent.
`now` stands for `Date.now()` and `freshId` for the store-generated id used
when the envelope has none. -/
def eachMessageUpsert (env : KEnvelope) (now : Nat) (freshId : String)
    (store : List MessageRow) : List MessageRow :=
  if env.text = "" ∨ env.userId = "" then store
  else
    upsertMessage (jsOr env.id (env.userId ++ "-" ++ toString now))
      { id := env.id.getD freshId
        text := env.text
        userId := env.userId
        roomId := jsOr env.roomId "global" } store

/-- `KafkaService.handleNewMessage` (multi-topic variant): validate
`text`/`userId`; when the envelope has an id, look it up and skip on a hit;
in all branches no row is written (the producing request already persisted
the message). -/
def handleNewMessage (env : KEnvelope) (store : List MessageRow) :
    List MessageRow :=
  if env.text = "" ∨ env.userId = "" then store
  else
    match env.id with
    | some i =>
      if i ≠ "" then
        match findUniqueMsg i store with
        | some _ => store
        | none => store
      else store
    | none => store

theorem countById_zero_of_not_found (i : String) (store : List MessageRow)
    (h : findUniqueMsg i store = none) : countById i store = 0 := by
  unfold findUniqueMsg at h
  unfold countById
  rw [List.find?_eq_none] at h
  rw [List.length_eq_zero, List.filter_eq_nil_iff]
  intro row hmem
  simpa using h row hmem

theorem findUniqueMsg_append_self (i : String) (store : List MessageRow)
    (row : MessageRow) (h : findUniqueMsg i store = none) (hrow : row.id = i) :
    findUniqueMsg i (store ++ [row]) = some row := by
  unfold findUniqueMsg at h ⊢
  rw [List.find?_append, h]
  simp [hrow]

/-- C2.  Applying the same `MESSAGES` envelope twice is idempotent: through the
upsert consumer a fresh identifier yields exactly one persisted row and the
second pass changes nothing; through `handleNewMessage` an envelope whose
identifier is already persisted is a no-op that keeps exactly one row. -/
theorem message_ingestion_idempotent (env : KEnvelope) (i : String)
    (now now' : Nat) (fresh fresh' : String) (store : List MessageRow)
    (hid : env.id = some i) (hi : i ≠ "") (htext : env.text ≠ "")
    (huser : env.userId ≠ "") :
    (findUniqueMsg i store = none →
      countById i (eachMessageUpsert env now' fresh'
          (eachMessageUpsert env now fresh store)) = 1 ∧
      eachMessageUpsert env now' fresh'
          (eachMessageUpsert env now fresh store) =
        eachMessageUpsert env now fresh store) ∧
    ((findUniqueMsg i store).isSome = true →
      handleNewMessage env store = store ∧
      countById i (handleNewMessage env (handleNewMessage env store)) =
        countById i store) := by
  have hkey : jsOr env.id (env.userId ++ "-" ++ toString now) = i := by
    rw [hid]
    simp [jsOr, hi]
  have hkey' : jsOr env.id (env.userId ++ "-" ++ toString now') = i := by
    rw [hid]
    simp [jsOr, hi]
  have hrowid : env.id.getD fresh = i := by rw [hid]; rfl
  constructor
  · intro habsent
    have hfirst :
        eachMessageUpsert env now fresh store =
          store ++ [{ id := env.id.getD fresh, text := env.text,
                      userId := env.userId, roomId := jsOr env.roomId "global" }] := by
      unfold eachMessageUpsert upsertMessage
      rw [hkey, habsent]
      simp [htext, huser]
    have hfound :
        findUniqueMsg i (eachMessageUpsert env now fresh store) =
          some { id := env.id.getD fresh, text := env.text,
                 userId := env.userId, roomId := jsOr env.roomId "global" } := by
      rw [hfirst]
      exact findUniqueMsg_append_self i store _ habsent hrowid
    have hsecond :
        eachMessageUpsert env now' fresh'
            (eachMessageUpsert env now fresh store) =
          eachMessageUpsert env now fresh store := by
      generalize hS : eachMessageUpsert env now fresh store = S at hfound
      unfold eachMessageUpsert upsertMessage
      rw [hkey', hfound]
      simp [htext, huser]
    refine ⟨?_, hsecond⟩
    rw [hsecond, hfirst]
    unfold countById
    rw [List.filter_append]
    have hz := countById_zero_of_not_found i store habsent
    unfold countById at hz
    rw [List.length_append, hz]
    simp [hrowid]
  · intro hpresent
    have hnoop : handleNewMessage env store = store := by
      unfold handleNewMessage
      rcases hf : findUniqueMsg i store with _ | row
      · rw [hf] at hpresent
        cases hpresent
      · simp [htext, huser, hid, hi, hf]
    exact ⟨hnoop, by rw [hnoop, hnoop]⟩

/-- Witness for C2: envelope `m1` against an empty store (fresh case) and
against a store already holding `m1` (replay case). -/
theorem message_ingestion_idempotent_witness :
    (KEnvelope.mk (some "m1") "hi" "u1" (some "global")).id = some "m1" ∧
    ((findUniqueMsg "m1" ([] : List MessageRow) = none →
      countById "m1" (eachMessageUpsert
          (KEnvelope.mk (some "m1") "hi" "u1" (some "global")) 7 "g1"
          (eachMessageUpsert
            (KEnvelope.mk (some "m1") "hi" "u1" (some "global")) 3 "g0" [])) = 1 ∧
      eachMessageUpsert (KEnvelope.mk (some "m1") "hi" "u1" (some "global")) 7 "g1"
          (eachMessageUpsert
            (KEnvelope.mk (some "m1") "hi" "u1" (some "global")) 3 "g0" []) =
        eachMessageUpsert
          (KEnvelope.mk (some "m1") "hi" "u1" (some "global")) 3 "g0" []) ∧
    ((findUniqueMsg "m1" ([] : List MessageRow)).isSome = true →
      handleNewMessage (KEnvelope.mk (some "m1") "hi" "u1" (some "global")) [] = [] ∧
      countById "m1" (handleNewMessage
          (KEnvelope.mk (some "m1") "hi" "u1" (some "global"))
          (handleNewMessage
            (KEnvelope.mk (some "m1") "hi" "u1" (some "global")) [])) =
        countById "m1" ([] : List MessageRow))) :=
  ⟨rfl,
   message_ingestion_idempotent
     (KEnvelope.mk (some "m1") "hi" "u1" (some "global")) "m1" 3 7 "g0" "g1" []
     rfl (by decide) (by decide) (by decide)⟩

/-! ### Relay client and the send-message flow
(`src/src/config/redis.ts`, `SocketService` `message:send` handler, and
`MessageController.createMessage`)

The Redis transport outcome and the Kafka produce outcome are inputs of the
model; the handlers' own control flow (validation order, try/catch) is
embedded from the source. -/

/-- `RedisClient.publish(channel, message)`: the transport error is logged and
then re-thrown (`throw error`) to the caller. -/
def redisPublish (transport : Except String Unit) : Except String Unit :=
  match transport with
  | Except.ok _ => Except.ok ()
  | Except.error e => Except.error e

/-- Outcome visible to the requester on the real-time path: either an
`error` event payload or normal completion. -/
inductive SendResult where
  | errEmit (msg : String)
  | ok
  deriving DecidableEq

/-- Side effects of one send-message request: whether the message row was
created, whether the relay publish succeeded, and whether the event-bus
produce succeeded. -/
structure SendTrace where
  persisted : Bool
  relayPublished : Bool
  busProduced : Bool
  deriving DecidableEq

def emptyTrace : SendTrace := ⟨false, false, false⟩

/-- External collaborator outcomes for one send-message request. -/
structure SendEnv where
  roomExists : String → Bool
  publishTransport : Except String Unit
  produceTransport : Except String Unit

/-- The `message:send` socket handler: validate blank text, then the
1000-character cap, then room existence (skipped for `global`), then persist,
publish to the relay and produce to the event bus inside one try/catch whose
catch emits `error {message: "Failed to send message"}`. -/
def socketMessageSend (env : SendEnv) (text : String) (roomId? : Option String) :
    SendResult × SendTrace :=
  if text = "" ∨ (jsTrim text).length = 0 then
    (SendResult.errEmit "Message text is required", emptyTrace)
  else if 1000 < text.length then
    (SendResult.errEmit "Message too long (max 1000 characters)", emptyTrace)
  else
    let roomId := jsOr roomId? "global"
    if roomId ≠ "global" ∧ env.roomExists roomId = false then
      (SendResult.errEmit "Room not found", emptyTrace)
    else
      match redisPublish env.publishTransport with
      | Except.error _ =>
        (SendResult.errEmit "Failed to send message",
         { persisted := true, relayPublished := false, busProduced := false })
      | Except.ok _ =>
        match env.produceTransport with
        | Except.error _ =>
          (SendResult.errEmit "Failed to send message",
           { persisted := true, relayPublished := true, busProduced := false })
        | Except.ok _ =>
          (SendResult.ok,
           { persisted := true, relayPublished := true, busProduced := true })

/-- Outcome visible to the requester on the REST path. -/
inductive RestResult where
  | status (code : Nat) (errbody : String)
  | created
  deriving DecidableEq

/-- `MessageController.createMessage`: same validation, with destructuring
default `roomId = 'global'` (applied only when the field is absent), room
check after the ensure-user step, and a catch that answers
`500 {error: "Failed to create message"}`. -/
def createMessageRest (env : SendEnv) (text : String) (roomId? : Option String) :
    RestResult × SendTrace :=
  let roomId := roomId?.getD "global"
  if text = "" ∨ (jsTrim text).length = 0 then
    (RestResult.status 400 "Message text is required", emptyTrace)
  else if 1000 < text.length then
    (RestResult.status 400 "Message too long (max 1000 characters)", emptyTrace)
  else if roomId ≠ "global" ∧ env.roomExists roomId = false then
    (RestResult.status 404 "Room not found", emptyTrace)
  else
    match redisPublish env.publishTransport with
    | Except.error _ =>
      (RestResult.status 500 "Failed to create message",
       { persisted := true, relayPublished := false, busProduced := false })
    | Except.ok _ =>
      match env.produceTransport with
      | Except.error _ =>
        (RestResult.status 500 "Failed to create message",
         { persisted := true, relayPublished := true, busProduced := false })
      | Except.ok _ =>
        (RestResult.created,
         { persisted := true, relayPublished := true, busProduced := true })

/-- Counterexample to C3 as stated: at a concrete transport failure,
`RedisClient.publish` raises the error to its caller, and the socket
send-message request surfaces `Failed to send message` to the requester. -/
theorem relay_publish_swallowed_counterexample :
    redisPublish (Except.error "ECONNRESET") = Except.error "ECONNRESET" ∧
    (socketMessageSend
        ⟨fun _ => true, Except.error "ECONNRESET", Except.ok ()⟩
        "hi" none).1 = SendResult.errEmit "Failed to send message" ∧
    (createMessageRest
        ⟨fun _ => true, Except.error "ECONNRESET", Except.ok ()⟩
        "hi" none).1 = RestResult.status 500 "Failed to create message" := by
  refine ⟨rfl, ?_, ?_⟩ <;> rfl

/-- C3 (amended).  A relay publish failure is logged and re-raised:
`RedisClient.publish` propagates the transport error, the surrounding
send-message catch surfaces a failure to the requester, the event-bus produce
step is skipped, and the already persisted row remains. -/
theorem relay_publish_failure_fails_request (env : SendEnv)
    (text : String) (roomId? : Option String) (e : String)
    (hfail : env.publishTransport = Except.error e)
    (htext : (jsTrim text).length ≠ 0) (hlen : text.length ≤ 1000)
    (hroom : jsOr roomId? "global" = "global" ∨
      env.roomExists (jsOr roomId? "global") = true) :
    redisPublish env.publishTransport = Except.error e ∧
    socketMessageSend env text roomId? =
      (SendResult.errEmit "Failed to send message",
       { persisted := true, relayPublished := false, busProduced := false }) := by
  have htext' : text ≠ "" := by
    intro hh
    subst hh
    exact htext rfl
  have hnotlong : ¬(1000 < text.length) := by omega
  refine ⟨by rw [hfail]; rfl, ?_⟩
  unfold socketMessageSend
  rw [if_neg (by simp [htext', htext]), if_neg hnotlong]
  have hroomcond : ¬(jsOr roomId? "global" ≠ "global" ∧
      env.roomExists (jsOr roomId? "global") = false) := by
    rcases hroom with hg | he
    · simp [hg]
    · simp [he]
  rw [if_neg hroomcond, hfail]
  rfl

/-- Witness for C3 (amended): concrete failing transport on the default
room. -/
theorem relay_publish_failure_fails_request_witness :
    (SendEnv.mk (fun _ => true) (Except.error "timeout") (Except.ok
      ())).publishTransport = Except.error "timeout" ∧
    (redisPublish (SendEnv.mk (fun _ => true) (Except.error "timeout")
        (Except.ok ())).publishTransport = Except.error "timeout" ∧
    socketMessageSend
        (SendEnv.mk (fun _ => true) (Except.error "timeout") (Except.ok ()))
        "hello" none =
      (SendResult.errEmit "Failed to send message",
       { persisted := true, relayPublished := false, busProduced := false })) :=
  ⟨rfl,
   relay_publish_failure_fails_request
     (SendEnv.mk (fun _ => true) (Except.error "timeout") (Except.ok ()))
     "hello" none "timeout" rfl (by decide) (by decide) (Or.inl rfl)⟩

/-- C5.  On both send paths, 1000-character non-blank text is accepted and
fans out; 1001-character text and blank text are rejected with the
validation errors, with nothing persisted, relayed, or produced. -/
theorem message_text_validation_boundary (env : SendEnv) (text : String)
    (hpub : env.publishTransport = Except.ok ())
    (hprod : env.produceTransport = Except.ok ()) :
    (text.length = 1000 → (jsTrim text).length ≠ 0 →
      socketMessageSend env text none =
        (SendResult.ok, ⟨true, true, true⟩) ∧
      createMessageRest env text none =
        (RestResult.created, ⟨true, true, true⟩)) ∧
    (text.length = 1001 → (jsTrim text).length ≠ 0 →
      socketMessageSend env text none =
        (SendResult.errEmit "Message too long (max 1000 characters)",
         emptyTrace) ∧
      createMessageRest env text none =
        (RestResult.status 400 "Message too long (max 1000 characters)",
         emptyTrace)) ∧
    ((jsTrim text).length = 0 →
      socketMessageSend env text none =
        (SendResult.errEmit "Message text is required", emptyTrace) ∧
      createMessageRest env text none =
        (RestResult.status 400 "Message text is required", emptyTrace)) := by
  refine ⟨?_, ?_, ?_⟩
  · intro hlen htrim
    have htext' : text ≠ "" := by
      intro hh
      subst hh
      exact htrim rfl
    have hnotlong : ¬(1000 < text.length) := by omega
    constructor
    · unfold socketMessageSend
      rw [if_neg (by simp [htext', htrim]), if_neg hnotlong]
      have : ¬(jsOr none "global" ≠ "global" ∧
          env.roomExists (jsOr none "global") = false) := by simp [jsOr]
      rw [if_neg this, hpub]
      simp [redisPublish, hprod]
    · unfold createMessageRest
      rw [if_neg (by simp [htext', htrim]), if_neg hnotlong]
      have : ¬((Option.getD none "global" : String) ≠ "global" ∧
          env.roomExists (Option.getD none "global") = false) := by simp
      rw [if_neg this, hpub]
      simp [redisPublish, hprod]
  · intro hlen htrim
    have htext' : text ≠ "" := by
      intro hh
      subst hh
      exact htrim rfl
    have hlong : 1000 < text.length := by omega
    constructor
    · unfold socketMessageSend
      rw [if_neg (by simp [htext', htrim]), if_pos hlong]
    · unfold createMessageRest
      rw [if_neg (by simp [htext', htrim]), if_pos hlong]
  · intro htrim
    constructor
    · unfold socketMessageSend
      rw [if_pos (Or.inr htrim)]
    · unfold createMessageRest
      rw [if_pos (Or.inr htrim)]

/-- Witness for C5: exactly 1000 letters are accepted, 1001 are rejected, and
a whitespace-only text is rejected, all against an all-healthy environment. -/
theorem message_text_validation_boundary_witness :
    (SendEnv.mk (fun _ => true) (Except.ok ()) (Except.ok
      ())).publishTransport = Except.ok () ∧
    (((String.mk (List.replicate 1000 'a')).length = 1000 →
      (jsTrim (String.mk (List.replicate 1000 'a'))).length ≠ 0 →
      socketMessageSend (SendEnv.mk (fun _ => true) (Except.ok ()) (Except.ok ()))
          (String.mk (List.replicate 1000 'a')) none =
        (SendResult.ok, ⟨true, true, true⟩) ∧
      createMessageRest (SendEnv.mk (fun _ => true) (Except.ok ()) (Except.ok ()))
          (String.mk (List.replicate 1000 'a')) none =
        (RestResult.created, ⟨true, true, true⟩)) ∧
    ((String.mk (List.replicate 1000 'a')).length = 1001 →
      (jsTrim (String.mk (List.replicate 1000 'a'))).length ≠ 0 →
      socketMessageSend (SendEnv.mk (fun _ => true) (Except.ok ()) (Except.ok ()))
          (String.mk (List.replicate 1000 'a')) none =
        (SendResult.errEmit "Message too long (max 1000 characters)",
         emptyTrace) ∧
      createMessageRest (SendEnv.mk (fun _ => true) (Except.ok ()) (Except.ok ()))
          (String.mk (List.replicate 1000 'a')) none =
        (RestResult.status 400 "Message too long (max 1000 characters)",
         emptyTrace)) ∧
    ((jsTrim (String.mk (List.replicate 1000 'a'))).length = 0 →
      socketMessageSend (SendEnv.mk (fun _ => true) (Except.ok ()) (Except.ok ()))
          (String.mk (List.replicate 1000 'a')) none =
        (SendResult.errEmit "Message text is required", emptyTrace) ∧
      createMessageRest (SendEnv.mk (fun _ => true) (Except.ok ()) (Except.ok ()))
          (String.mk (List.replicate 1000 'a')) none =
        (RestResult.status 400 "Message text is required", emptyTrace))) ∧
    (((String.mk (List.replicate 1001 'b')).length = 1001 →
      (jsTrim (String.mk (List.replicate 1001 'b'))).length ≠ 0 →
      socketMessageSend (SendEnv.mk (fun _ => true) (Except.ok ()) (Except.ok ()))
          (String.mk (List.replicate 1001 'b')) none =
        (SendResult.errEmit "Message too long (max 1000 characters)",
         emptyTrace) ∧
      createMessageRest (SendEnv.mk (fun _ => true) (Except.ok ()) (Except.ok ()))
          (String.mk (List.replicate 1001 'b')) none =
        (RestResult.status 400 "Message too long (max 1000 characters)",
         emptyTrace))) ∧
    ((jsTrim "   ").length = 0 →
      socketMessageSend (SendEnv.mk (fun _ => true) (Except.ok ()) (Except.ok ()))
          "   " none =
        (SendResult.errEmit "Message text is required", emptyTrace) ∧
      createMessageRest (SendEnv.mk (fun _ => true) (Except.ok ()) (Except.ok ()))
          "   " none =
        (RestResult.status 400 "Message text is required", emptyTrace)) :=
  ⟨rfl,
   message_text_validation_boundary
     (SendEnv.mk (fun _ => true) (Except.ok ()) (Except.ok ()))
     (String.mk (List.replicate 1000 'a')) rfl rfl,
   (message_text_validation_boundary
     (SendEnv.mk (fun _ => true) (Except.ok ()) (Except.ok ()))
     (String.mk (List.replicate 1001 'b')) rfl rfl).2.1,
   (message_text_validation_boundary
     (SendEnv.mk (fun _ => true) (Except.ok ()) (Except.ok ()))
     "   " rfl rfl).2.2⟩

/-! ### Event-Bus connection retry loop (`KafkaService.connect`) and service
startup order (`src/index.ts` + `initializeServices` in `src/app.ts`)

`connect` runs a `while (retryCount < maxRetries)` loop; `ok n` is the outcome
of attempt number `n` (0-based).  The result records whether a connection was
established and the list of backoff waits (in ms) performed between attempts.
The loop is embedded with an explicit fuel argument equal to the remaining
loop iterations, so `kafkaConnect` runs it with fuel `maxRetries`. -/

def connectLoop (ok : Nat → Bool) (maxRetries : Nat) :
    Nat → Nat → Except String Bool × List Nat
  | _, 0 => (Except.ok false, [])
  | retryCount, fuel + 1 =>
    if retryCount < maxRetries then
      if ok retryCount then (Except.ok true, [])
      else
        if maxRetries ≤ retryCount + 1 then
          (Except.error ("Failed to connect to Kafka after " ++
            toString maxRetries ++ " attempts"), [])
        else
          let rest := connectLoop ok maxRetries (retryCount + 1) fuel
          (rest.1, min (1000 * 2 ^ (retryCount + 1 - 1)) 30000 :: rest.2)
    else (Except.ok false, [])

/-- `KafkaService.connect()` with `maxRetries = 10`. -/
def kafkaConnect (ok : Nat → Bool) : Except String Bool × List Nat :=
  connectLoop ok 10 0 10

/-- Startup actions of the service process, in order. -/
inductive StartupAction where
  | listenHttp
  | dbConnect
  | redisConnect
  | kafkaConnectCall
  | startConsumerCall
  | socketInit
  | processExit (code : Nat)
  deriving DecidableEq

/-- `initializeServices()` (src/app.ts): database, then Redis, then
`kafkaService.connect()`; only when that resolves are the consumer started and
Socket.IO initialized. -/
def initializeServicesActions (ok : Nat → Bool) : List StartupAction :=
  [StartupAction.dbConnect, StartupAction.redisConnect,
   StartupAction.kafkaConnectCall] ++
  (match (kafkaConnect ok).1 with
   | Except.ok _ => [StartupAction.startConsumerCall, StartupAction.socketInit]
   | Except.error _ => [])

/-- `src/index.ts`: `server.listen(PORT)` runs first, unconditionally; then
`initializeServices().catch(() => process.exit(1))`. -/
def indexMain (ok : Nat → Bool) : List StartupAction :=
  [StartupAction.listenHttp] ++ initializeServicesActions ok ++
  (match (kafkaConnect ok).1 with
   | Except.ok _ => []
   | Except.error _ => [StartupAction.processExit 1])

/-- Counterexample to C4 as stated: with every connect attempt failing, the
HTTP listener (REST ingress) has already been started — it is the very first
startup action, before the event-bus connection is even attempted — so the
service does begin accepting REST connections during the retry window. -/
theorem startup_listens_before_bus_connect_counterexample :
    indexMain (fun _ => false) =
      [StartupAction.listenHttp, StartupAction.dbConnect,
       StartupAction.redisConnect, StartupAction.kafkaConnectCall,
       StartupAction.processExit 1] ∧
    (indexMain (fun _ => false)).head? = some StartupAction.listenHttp ∧
    (kafkaConnect (fun _ => false)).1 =
      Except.error "Failed to connect to Kafka after 10 attempts" := by
  refine ⟨?_, ?_, ?_⟩ <;> rfl

/-- C4 (amended).  Ten consecutive connect failures make
`KafkaService.connect` raise the fatal connection error after the backoff
waits `min(1000·2^(n-1), 30000)`; initialization then aborts with
`process.exit(1)` and Socket.IO (real-time ingress) is never initialized —
but the HTTP/REST listener was already started before initialization, so REST
ingress is accepted during the retry window. -/
theorem kafka_connect_fatal_after_ten_failures (ok : Nat → Bool)
    (hfail : ∀ n, n < 10 → ok n = false) :
    kafkaConnect ok =
      (Except.error "Failed to connect to Kafka after 10 attempts",
       [1000, 2000, 4000, 8000, 16000, 30000, 30000, 30000, 30000]) ∧
    indexMain ok =
      [StartupAction.listenHttp, StartupAction.dbConnect,
       StartupAction.redisConnect, StartupAction.kafkaConnectCall,
       StartupAction.processExit 1] ∧
    StartupAction.socketInit ∉ indexMain ok ∧
    StartupAction.listenHttp ∈ indexMain ok := by
  have hconn : kafkaConnect ok =
      (Except.error "Failed to connect to Kafka after 10 attempts",
       [1000, 2000, 4000, 8000, 16000, 30000, 30000, 30000, 30000]) := by
    unfold kafkaConnect
    simp only [connectLoop, hfail 0 (by omega), hfail 1 (by omega),
      hfail 2 (by omega), hfail 3 (by omega), hfail 4 (by omega),
      hfail 5 (by omega), hfail 6 (by omega), hfail 7 (by omega),
      hfail 8 (by omega), hfail 9 (by omega)]
    norm_num
    rfl
  refine ⟨hconn, ?_, ?_, ?_⟩
  · unfold indexMain initializeServicesActions
    rw [hconn]
    rfl
  · unfold indexMain initializeServicesActions
    rw [hconn]
    decide
  · unfold indexMain
    simp

/-- Witness for C4 (amended): the always-failing attempt sequence. -/
theorem kafka_connect_fatal_after_ten_failures_witness :
    kafkaConnect (fun _ => false) =
      (Except.error "Failed to connect to Kafka after 10 attempts",
       [1000, 2000, 4000, 8000, 16000, 30000, 30000, 30000, 30000]) ∧
    indexMain (fun _ => false) =
      [StartupAction.listenHttp, StartupAction.dbConnect,
       StartupAction.redisConnect, StartupAction.kafkaConnectCall,
       StartupAction.processExit 1] ∧
    StartupAction.socketInit ∉ indexMain (fun _ => false) ∧
    StartupAction.listenHttp ∈ indexMain (fun _ => false) :=
  kafka_connect_fatal_after_ten_failures (fun _ => false) (fun _ _ => rfl)

/-! ### Event-Bus producer (`KafkaService.produceMessage`, both variants)

The state carries `producer !== null` and `isConnected`; `send` is the
transport outcome of the i-th `producer.send` call (only call 0 is ever
made — there is no internal retry); `now`/`rand` stand for `Date.now()` and
`Math.random()`.  The result pairs the outcome raised to the caller with the
delivery key assigned to the record (none when the guard throws before a
record is built). -/

structure ProducerState where
  producerInit : Bool
  isConnected : Bool
  deriving DecidableEq

/-- Multi-topic variant: key `` `${topic}-${Date.now()}-${Math.random()}` ``. -/
def produceMessage (st : ProducerState) (send : Nat → Except String Unit)
    (topic : String) (now : Nat) (rand : String) :
    Except String Unit × Option String :=
  if st.producerInit = false ∨ st.isConnected = false then
    (Except.error "Kafka producer not initialized or connected", none)
  else
    let key := topic ++ "-" ++ toString now ++ "-" ++ rand
    match send 0 with
    | Except.ok _ => (Except.ok (), some key)
    | Except.error e => (Except.error e, some key)

/-- Single-topic variant: key `` `message-${Date.now()}-${Math.random()}` ``. -/
def produceMessageSingle (st : ProducerState) (send : Nat → Except String Unit)
    (topic : String) (now : Nat) (rand : String) :
    Except String Unit × Option String :=
  if st.producerInit = false ∨ st.isConnected = false then
    (Except.error "Kafka producer not initialized or connected", none)
  else
    let key := "message-" ++ toString now ++ "-" ++ rand
    match send 0 with
    | Except.ok _ => (Except.ok (), some key)
    | Except.error e => (Except.error e, some key)

/-- Counterexample to C6 as stated: the single-topic variant of
`produceMessage` assigns the same delivery key to sends on two different
topics (its key prefix is the fixed string `message`), so its key is not
derived from the topic. -/
theorem produce_key_single_variant_counterexample :
    (produceMessageSingle ⟨true, true⟩ (fun _ => Except.ok ())
        "MESSAGES" 5 "042").2 =
      (produceMessageSingle ⟨true, true⟩ (fun _ => Except.ok ())
        "ROOM_CREATED" 5 "042").2 ∧
    (produceMessageSingle ⟨true, true⟩ (fun _ => Except.ok ())
        "MESSAGES" 5 "042").2 = some "message-5-042" ∧
    (produceMessage ⟨true, true⟩ (fun _ => Except.ok ())
        "MESSAGES" 5 "042").2 = some "MESSAGES-5-042" := by
  refine ⟨rfl, rfl, rfl⟩

/-- C6 (amended).  Both variants raise
`Kafka producer not initialized or connected` when the producer is absent or
the client disconnected; a transport failure on the single send attempt is
raised unchanged to the caller; only the first send outcome is ever consulted
(no internal retry); the multi-topic variant's key is
`topic ++ "-" ++ now ++ "-" ++ rand` while the single-topic variant uses the
fixed prefix `message`. -/
theorem produce_message_guard_failure_key (st : ProducerState)
    (send send' : Nat → Except String Unit) (topic : String) (now : Nat)
    (rand : String) (e : String) :
    (st.producerInit = false ∨ st.isConnected = false →
      produceMessage st send topic now rand =
        (Except.error "Kafka producer not initialized or connected", none) ∧
      produceMessageSingle st send topic now rand =
        (Except.error "Kafka producer not initialized or connected", none)) ∧
    (st.producerInit = true → st.isConnected = true →
      send 0 = Except.error e →
      (produceMessage st send topic now rand).1 = Except.error e ∧
      (produceMessageSingle st send topic now rand).1 = Except.error e) ∧
    (send 0 = send' 0 →
      produceMessage st send topic now rand =
        produceMessage st send' topic now rand ∧
      produceMessageSingle st send topic now rand =
        produceMessageSingle st send' topic now rand) ∧
    (st.producerInit = true → st.isConnected = true →
      (produceMessage st send topic now rand).2 =
        some (topic ++ "-" ++ toString now ++ "-" ++ rand) ∧
      (produceMessageSingle st send topic now rand).2 =
        some ("message-" ++ toString now ++ "-" ++ rand)) := by
  refine ⟨?_, ?_, ?_, ?_⟩
  · intro hdown
    unfold produceMessage produceMessageSingle
    rw [if_pos hdown, if_pos hdown]
    exact ⟨rfl, rfl⟩
  · intro hp hc hsend
    have hup : ¬(st.producerInit = false ∨ st.isConnected = false) := by
      simp [hp, hc]
    unfold produceMessage produceMessageSingle
    rw [if_neg hup, if_neg hup, hsend]
    exact ⟨rfl, rfl⟩
  · intro hagree
    unfold produceMessage produceMessageSingle
    rw [hagree]
    exact ⟨rfl, rfl⟩
  · intro hp hc
    have hup : ¬(st.producerInit = false ∨ st.isConnected = false) := by
      simp [hp, hc]
    unfold produceMessage produceMessageSingle
    rw [if_neg hup, if_neg hup]
    rcases send 0 with _ | _ <;> exact ⟨rfl, rfl⟩

/-- Send-attempt outcome functions used by concrete producer scenarios. -/
def okSend : Nat → Except String Unit := fun _ => Except.ok ()

def failSend : Nat → Except String Unit := fun _ => Except.error "broker down"

def failSendOnceMore : Nat → Except String Unit :=
  fun n => if n = 0 then Except.error "broker down" else Except.ok ()

/-- Witness for C6 (amended): a disconnected state, a failing transport, two
transports agreeing on their first outcome, and the assigned keys. -/
theorem produce_message_guard_failure_key_witness :
    (produceMessage (ProducerState.mk true false) okSend "MESSAGES" 9 "05" =
        (Except.error "Kafka producer not initialized or connected", none) ∧
      produceMessageSingle (ProducerState.mk true false) okSend
          "MESSAGES" 9 "05" =
        (Except.error "Kafka producer not initialized or connected", none)) ∧
    ((produceMessage (ProducerState.mk true true) failSend
        "MESSAGES" 9 "05").1 = Except.error "broker down" ∧
      (produceMessageSingle (ProducerState.mk true true) failSend
        "MESSAGES" 9 "05").1 = Except.error "broker down") ∧
    (produceMessage (ProducerState.mk true true) failSend "MESSAGES" 9 "05" =
        produceMessage (ProducerState.mk true true) failSendOnceMore
          "MESSAGES" 9 "05" ∧
      produceMessageSingle (ProducerState.mk true true) failSend
          "MESSAGES" 9 "05" =
        produceMessageSingle (ProducerState.mk true true) failSendOnceMore
          "MESSAGES" 9 "05") ∧
    ((produceMessage (ProducerState.mk true true) okSend
        "MESSAGES" 9 "05").2 =
        some ("MESSAGES" ++ "-" ++ toString 9 ++ "-" ++ "05") ∧
      (produceMessageSingle (ProducerState.mk true true) okSend
        "MESSAGES" 9 "05").2 =
        some ("message-" ++ toString 9 ++ "-" ++ "05")) :=
  ⟨(produce_message_guard_failure_key (ProducerState.mk true false)
      okSend okSend "MESSAGES" 9 "05" "broker down").1 (Or.inr rfl),
   (produce_message_guard_failure_key (ProducerState.mk true true)
      failSend failSend "MESSAGES" 9 "05" "broker down").2.1 rfl rfl rfl,
   (produce_message_guard_failure_key (ProducerState.mk true true)
      failSend failSendOnceMore "MESSAGES" 9 "05" "broker down").2.2.1 rfl,
   (produce_message_guard_failure_key (ProducerState.mk true true)
      okSend okSend "MESSAGES" 9 "05" "broker down").2.2.2 rfl rfl⟩

/-! ### Per-topic pause/resume backpressure
(`KafkaService.startConsumer`, `eachMessage` catch block)

`pausedUntil` records, per topic, the deadline `errorTime + 30000` set by the
`pause(); setTimeout(resume, 30000)` pair in the catch handler.  A delivery on
a paused topic before the deadline is not dispatched (the broker fetch for the
topic is paused); the `setTimeout` wake-up is modelled by clearing the entry
when a delivery arrives at or after the deadline, which is when the timer has
already fired. -/

structure Delivery where
  topic : String
  time : Nat
  raises : Bool
  deriving DecidableEq

def pauseTopic (p : String → Option Nat) (T : String) (deadline : Nat) :
    String → Option Nat :=
  fun t => if t = T then some deadline else p t

def resumeTopic (p : String → Option Nat) (T : String) :
    String → Option Nat :=
  fun t => if t = T then none else p t

/-- Handler invocation: runs `handleMessage`; when it raises, the catch pauses
the delivery's topic for 30000 ms from the failure instant. -/
def dispatchMessage (p : String → Option Nat) (d : Delivery) :
    (String → Option Nat) × Bool :=
  if d.raises then (pauseTopic p d.topic (d.time + 30000), true)
  else (p, true)

/-- One broker delivery: dropped while the topic is paused and its cooldown
deadline has not passed, dispatched otherwise. -/
def consumeStep (p : String → Option Nat) (d : Delivery) :
    (String → Option Nat) × Bool :=
  match p d.topic with
  | some deadline =>
    if d.time < deadline then (p, false)
    else dispatchMessage (resumeTopic p d.topic) d
  | none => dispatchMessage p d

/-- Run of the consumer over a delivery sequence, returning the final pause
state and each delivery tagged with whether it was dispatched. -/
def runConsumer (p : String → Option Nat) :
    List Delivery → (String → Option Nat) × List (Delivery × Bool)
  | [] => (p, [])
  | d :: ds =>
    let st := consumeStep p d
    let rest := runConsumer st.1 ds
    (rest.1, (d, st.2) :: rest.2)

theorem consumeStep_other_topic (p : String → Option Nat) (d : Delivery)
    (T : String) (h : d.topic ≠ T) : (consumeStep p d).1 T = p T := by
  unfold consumeStep dispatchMessage pauseTopic resumeTopic
  have hT : ¬(T = d.topic) := fun hh => h hh.symm
  rcases hp : p d.topic with _ | dl
  · rcases hr : d.raises <;> simp [hr, hT]
  · by_cases ht : d.time < dl
    · simp [ht]
    · rcases hr : d.raises <;> simp [ht, hr, hT]

theorem runConsumer_paused_topic (T : String) (dl : Nat) (ds : List Delivery) :
    ∀ p : String → Option Nat, p T = some dl →
      (∀ x ∈ ds, x.topic = T → x.time < dl) →
      (runConsumer p ds).1 T = some dl ∧
      ∀ pr ∈ (runConsumer p ds).2, pr.1.topic = T → pr.2 = false := by
  induction ds with
  | nil =>
    intro p hp _
    exact ⟨hp, by intro pr hpr; cases hpr⟩
  | cons d ds ih =>
    intro p hp hall
    by_cases hd : d.topic = T
    · have htime : d.time < dl := hall d (List.mem_cons_self d ds) hd
      have hstep : consumeStep p d = (p, false) := by
        unfold consumeStep
        rw [hd, hp]
        simp [htime]
      have hrec := ih p hp (fun x hx => hall x (List.mem_cons_of_mem d hx))
      unfold runConsumer
      rw [hstep]
      refine ⟨hrec.1, ?_⟩
      intro pr hpr hprT
      simp only [List.mem_cons] at hpr
      rcases hpr with hpr | hpr
      · rw [hpr]
      · exact hrec.2 pr hpr hprT
    · have hpres : (consumeStep p d).1 T = p T := consumeStep_other_topic p d T hd
      have hrec := ih (consumeStep p d).1 (by rw [hpres, hp])
        (fun x hx => hall x (List.mem_cons_of_mem d hx))
      unfold runConsumer
      refine ⟨hrec.1, ?_⟩
      intro pr hpr hprT
      simp only [List.mem_cons] at hpr
      rcases hpr with hpr | hpr
      · rw [hpr] at hprT ⊢
        exact absurd hprT hd
      · exact hrec.2 pr hpr hprT

/-- C7.  A raising handler on topic T pauses T for the fixed 30000 ms
cooldown: the pause deadline is the failure time plus 30000; while it lasts no
delivery on T is dispatched (other topics are unaffected); and a delivery at
or after the deadline is dispatched again without any manual intervention. -/
theorem consumer_error_pause_resume (T : String) (t : Nat) (raises : Bool)
    (p : String → Option Nat) (ds : List Delivery) :
    (p T = none →
      (consumeStep p (Delivery.mk T t true)).1 T = some (t + 30000) ∧
      (consumeStep p (Delivery.mk T t true)).2 = true) ∧
    (∀ dl, p T = some dl → (∀ x ∈ ds, x.topic = T → x.time < dl) →
      (runConsumer p ds).1 T = some dl ∧
      ∀ pr ∈ (runConsumer p ds).2, pr.1.topic = T → pr.2 = false) ∧
    (∀ dl, p T = some dl → dl ≤ t →
      (consumeStep p (Delivery.mk T t raises)).2 = true) := by
  refine ⟨?_, ?_, ?_⟩
  · intro hp
    unfold consumeStep dispatchMessage pauseTopic
    simp [hp]
  · intro dl hp hall
    exact runConsumer_paused_topic T dl ds p hp hall
  · intro dl hp hle
    have : ¬(t < dl) := by omega
    unfold consumeStep dispatchMessage
    rcases hr : raises <;> simp [hp, this, hr]

/-- The all-clear pause state (no topic paused). -/
def noPause : String → Option Nat := fun _ => none

/-- Pause state after a failure on `MESSAGES` at time 100. -/
def pausedMessages : String → Option Nat := pauseTopic noPause "MESSAGES" 30100

/-- Witness for C7: an error at time 100 pauses `MESSAGES` until 30100;
a delivery at 200 on `MESSAGES` is dropped while one on another topic at
250 is dispatched; a `MESSAGES` delivery at 30100 is dispatched again. -/
theorem consumer_error_pause_resume_witness :
    ((consumeStep noPause (Delivery.mk "MESSAGES" 100 true)).1
          "MESSAGES" = some (100 + 30000) ∧
      (consumeStep noPause (Delivery.mk "MESSAGES" 100 true)).2 = true) ∧
    ((runConsumer pausedMessages
          [Delivery.mk "MESSAGES" 200 false,
           Delivery.mk "USER_CREATED" 250 false]).1 "MESSAGES" = some 30100 ∧
      ∀ pr ∈ (runConsumer pausedMessages
          [Delivery.mk "MESSAGES" 200 false,
           Delivery.mk "USER_CREATED" 250 false]).2,
        pr.1.topic = "MESSAGES" → pr.2 = false) ∧
    (consumeStep pausedMessages (Delivery.mk "MESSAGES" 30100 false)).2 =
      true :=
  ⟨(consumer_error_pause_resume "MESSAGES" 100 true noPause
      [Delivery.mk "MESSAGES" 200 false,
       Delivery.mk "USER_CREATED" 250 false]).1 rfl,
   (consumer_error_pause_resume "MESSAGES" 100 true pausedMessages
      [Delivery.mk "MESSAGES" 200 false,
       Delivery.mk "USER_CREATED" 250 false]).2.1 30100 (by decide)
     (by decide),
   (consumer_error_pause_resume "MESSAGES" 30100 false pausedMessages
      [Delivery.mk "MESSAGES" 200 false,
       Delivery.mk "USER_CREATED" 250 false]).2.2 30100 (by decide)
     (by decide)⟩

/-! ### Room join handler (`SocketService` `join:room`) -/

/-- Result of the `join:room` handler: either an `error` emit to the caller
(no membership recorded, nobody notified) or a successful join of the
`room:<id>` channel followed by the `user:joined` notification to the room. -/
inductive JoinOutcome where
  | errEmit (msg : String)
  | joined (channel : String) (notifiedRoom : Bool)
  deriving DecidableEq

/-- `join:room(roomId)`: every room except the default `global` must exist in
the store; an unknown room emits `Room not found` and returns before
`socket.join` and the `user:joined` emit. -/
def joinRoomHandler (roomExists : String → Bool) (roomId : String) :
    JoinOutcome :=
  if roomId ≠ "global" ∧ roomExists roomId = false then
    JoinOutcome.errEmit "Room not found"
  else
    JoinOutcome.joined ("room:" ++ roomId) true

/-- C8.  Joining an unknown non-`global` room reports `Room not found` and
records no membership (no join, no `user:joined`); joining `global` always
succeeds and consults no room store at all (the outcome is the same for every
store). -/
theorem join_room_unknown_rejected_global_unchecked
    (f g : String → Bool) (roomId : String) :
    (roomId ≠ "global" → f roomId = false →
      joinRoomHandler f roomId = JoinOutcome.errEmit "Room not found") ∧
    joinRoomHandler f "global" = JoinOutcome.joined "room:global" true ∧
    joinRoomHandler f "global" = joinRoomHandler g "global" := by
  refine ⟨?_, ?_, ?_⟩
  · intro hne hnotfound
    unfold joinRoomHandler
    rw [if_pos ⟨hne, hnotfound⟩]
  · unfold joinRoomHandler
    simp
  · unfold joinRoomHandler
    simp

/-- Witness for C8: the empty store rejects room `r1` and still accepts
`global`. -/
theorem join_room_unknown_rejected_global_unchecked_witness :
    (("r1" : String) ≠ "global" → (fun _ => false) "r1" = false →
      joinRoomHandler (fun _ => false) "r1" =
        JoinOutcome.errEmit "Room not found") ∧
    joinRoomHandler (fun _ => false) "global" =
      JoinOutcome.joined "room:global" true ∧
    joinRoomHandler (fun _ => false) "global" =
      joinRoomHandler (fun _ => true) "global" :=
  join_room_unknown_rejected_global_unchecked
    (fun _ => false) (fun _ => true) "r1"

end ChatService
